import Mathlib

/-!
Shallow embedding of the TuStockYa backend core (main_standalone.py): the
multi-location stock ledger and the sale, transfer, return, discount and
notification workflows.  Database tables are modelled as lists of typed rows,
money amounts as rationals, quantities as integers (Python ints), and each
FastAPI endpoint as a pure function from a request and a database state to a
result together with the next database state.  HTTP error responses raised by
the endpoints are modelled by the `ApiError` inductive, one constructor per
raise site.
-/

/- The arithmetic on ℚ in core Lean is marked irreducible, which blocks `decide`
on concrete money computations; restore the default reducibility locally. -/
attribute [local semireducible] Rat.add Rat.sub Rat.mul Rat.inv

/-- Decidable equality of endpoint results. -/
instance {ε α : Type} [DecidableEq ε] [DecidableEq α] : DecidableEq (Except ε α) :=
  fun x y =>
    match x, y with
    | .ok u, .ok v =>
      if h : u = v then .isTrue (by rw [h]) else .isFalse (fun hc => by cases hc; exact h rfl)
    | .error u, .error v =>
      if h : u = v then .isTrue (by rw [h]) else .isFalse (fun hc => by cases hc; exact h rfl)
    | .ok _, .error _ => .isFalse (fun hc => by cases hc)
    | .error _, .ok _ => .isFalse (fun hc => by cases hc)

/-- The authenticated caller as injected by get_current_user: id, role string
and the location the user is assigned to. -/
structure User where
  id : Nat
  role : String
  locationId : Nat
deriving Repr, DecidableEq

/-- One row of the locations table (only the columns the core reads). -/
structure LocationRow where
  id : Nat
  name : String
deriving Repr, DecidableEq

/-- One row of product_sizes joined with its product: the stock quantity for a
(reference_code, location_name, size) key.  The SQL in the source resolves the
location through its name (`p.location_name = (SELECT name FROM locations
WHERE id = ?)`), so the row stores the location name. -/
structure StockRow where
  referenceCode : String
  locationName : String
  size : String
  quantity : Int
deriving Repr, DecidableEq

/-- One row of the sales table.  Timestamps are abstract ticks (Nat). -/
structure SaleRow where
  id : Nat
  sellerId : Nat
  locationId : Nat
  totalAmount : ℚ
  receiptImage : Option String
  notes : String
  requiresConfirmation : Bool
  confirmed : Bool
  confirmedAt : Option Nat
  saleDate : Nat
deriving Repr, DecidableEq

/-- One row of the sale_payments table. -/
structure SalePaymentRow where
  saleId : Nat
  paymentType : String
  amount : ℚ
  reference : Option String
deriving Repr, DecidableEq

/-- One row of the sale_items table. -/
structure SaleItemRow where
  saleId : Nat
  sneakerReferenceCode : String
  brand : String
  model : String
  color : Option String
  size : String
  quantity : Int
  unitPrice : ℚ
  subtotal : ℚ
deriving Repr, DecidableEq

/-- One row of the transfer_requests table. -/
structure TransferRow where
  id : Nat
  requesterId : Nat
  sourceLocationId : Nat
  destinationLocationId : Nat
  sneakerReferenceCode : String
  brand : String
  model : String
  size : String
  quantity : Int
  purpose : String
  pickupType : String
  destinationType : String
  status : String
  requestedAt : Nat
  notes : Option String
deriving Repr, DecidableEq

/-- One row of the return_requests table. -/
structure ReturnRow where
  id : Nat
  originalTransferId : Nat
  requesterId : Nat
  sourceLocationId : Nat
  destinationLocationId : Nat
  sneakerReferenceCode : String
  size : String
  quantity : Int
  status : String
  requestedAt : Nat
  notes : Option String
deriving Repr, DecidableEq

/-- One row of the discount_requests table. -/
structure DiscountRow where
  id : Nat
  sellerId : Nat
  amount : ℚ
  reason : String
  status : String
  requestedAt : Nat
deriving Repr, DecidableEq

/-- One row of the return_notifications table. -/
structure NotificationRow where
  id : Nat
  transferRequestId : Nat
  returnedToLocation : String
  readByRequester : Bool
deriving Repr, DecidableEq

/-- The database state: one list per table the core touches. -/
structure DB where
  locations : List LocationRow
  stock : List StockRow
  sales : List SaleRow
  saleItems : List SaleItemRow
  salePayments : List SalePaymentRow
  transfers : List TransferRow
  returns : List ReturnRow
  discounts : List DiscountRow
  notifications : List NotificationRow
deriving Repr, DecidableEq

/-- HTTP error responses, one constructor per raise site in the source, plus
`undefinedName` for an unhandled Python NameError escaping an endpoint. -/
inductive ApiError where
  | forbidden (detail : String)
  | paymentMismatch (paid total : ℚ)
  | discountTooLarge
  | discountNonPositive
  | saleNotFound
  | transferNotFound
  | notificationNotFound
  | stockUpdateFailed
  | undefinedName (name : String)
deriving Repr, DecidableEq

/-- `SELECT name FROM locations WHERE id = ?` (first matching row). -/
def lookupLocationName (db : DB) (locId : Nat) : Option String :=
  (db.locations.find? (fun l => l.id == locId)).map (fun l => l.name)

/-- An item of the parsed `items` JSON of POST /api/v1/sales/create. -/
structure SaleItemInput where
  sneakerReferenceCode : String
  brand : String
  model : String
  color : Option String
  size : String
  quantity : Int
  unitPrice : ℚ
deriving Repr, DecidableEq

/-- An entry of the parsed `payment_methods` JSON. -/
structure PaymentInput where
  paymentType : String
  amount : ℚ
  reference : Option String
deriving Repr, DecidableEq

/-- The effect on one stock row of
`UPDATE product_sizes SET quantity = quantity - ? WHERE product_id = (...) AND size = ?`:
the quantity is decremented unconditionally on the matching key; rows that do
not match are untouched.  There is no availability check and no lower bound. -/
def debitItemRow (locName : String) (it : SaleItemInput) (r : StockRow) : StockRow :=
  if r.referenceCode = it.sneakerReferenceCode ∧ r.locationName = locName ∧ r.size = it.size then
    { r with quantity := r.quantity - it.quantity }
  else r

/-- update_stock_after_sale (main_standalone.py:489-528): for each item, run the
unconditional decrement UPDATE against the location resolved by name.  If the
location id resolves to no row the subselect is NULL and the UPDATE matches
nothing.  All statements commit together. -/
def update_stock_after_sale (items : List SaleItemInput) (locationId : Nat) (db : DB) :
    List StockRow :=
  items.foldl
    (fun st it =>
      match lookupLocationName db locationId with
      | none => st
      | some lname => st.map (debitItemRow lname it))
    db.stock

/-- The quantity `validate_stock_availability` reads for one item: the first
matching product_sizes row, or 0 when there is none. -/
def availableQty (db : DB) (locationId : Nat) (it : SaleItemInput) : Int :=
  match lookupLocationName db locationId with
  | none => 0
  | some lname =>
    match db.stock.find? (fun r =>
        r.referenceCode == it.sneakerReferenceCode && r.locationName == lname
          && r.size == it.size) with
    | some r => r.quantity
    | none => 0

/-- validate_stock_availability (main_standalone.py:429-474): collect the items
whose requested quantity exceeds the available quantity.  NOTE: this function
is defined in the source but never called from any endpoint (dead code). -/
def validate_stock_availability (items : List SaleItemInput) (locationId : Nat) (db : DB) :
    List (String × String × Int × Int) :=
  items.foldl
    (fun issues it =>
      if availableQty db locationId it < it.quantity then
        issues ++ [(it.sneakerReferenceCode, it.size, it.quantity, availableQty db locationId it)]
      else issues)
    []

/-- The request body of POST /api/v1/sales/create after JSON parsing and the
optional receipt upload. -/
structure CreateSaleRequest where
  items : List SaleItemInput
  totalAmount : ℚ
  payments : List PaymentInput
  notes : String
  requiresConfirmation : Bool
  receiptUrl : Option String
deriving Repr, DecidableEq

/-- The fields of the success response of POST /api/v1/sales/create that the
spec talks about. -/
structure CreateSaleResponse where
  saleId : Nat
  status : String
deriving Repr, DecidableEq

/-- Sum of the declared payment amounts. -/
def totalPayments (req : CreateSaleRequest) : ℚ :=
  (req.payments.map (fun p => p.amount)).sum

/-- Python's abs on a rational. -/
def pyAbs (x : ℚ) : ℚ := if x < 0 then -x else x

/-- create_sale_complete (main_standalone.py:1131-1275).
Order of operations, as in the source: role check; payment-sum check against
`total_amount` with epsilon 0.01 (before any database work); insert the sales
row with `confirmed = not requires_confirmation`; insert the payment and item
rows; commit; then, only when `requires_confirmation` is false, call
update_stock_after_sale inside a try/except that swallows any exception, and
return success regardless. -/
def create_sale_complete (u : User) (req : CreateSaleRequest) (now : Nat) (db : DB) :
    Except ApiError CreateSaleResponse × DB :=
  if ¬(u.role = "seller" ∨ u.role = "administrador") then
    (.error (.forbidden "Solo vendedores pueden registrar ventas"), db)
  else if pyAbs (totalPayments req - req.totalAmount) > 1 / 100 then
    (.error (.paymentMismatch (totalPayments req) req.totalAmount), db)
  else
    let saleId := db.sales.length + 1
    let sale : SaleRow :=
      { id := saleId, sellerId := u.id, locationId := u.locationId,
        totalAmount := req.totalAmount, receiptImage := req.receiptUrl,
        notes := req.notes, requiresConfirmation := req.requiresConfirmation,
        confirmed := !req.requiresConfirmation,
        confirmedAt := if req.requiresConfirmation then none else some now,
        saleDate := now }
    let payRows : List SalePaymentRow := req.payments.map (fun p =>
      { saleId := saleId, paymentType := p.paymentType, amount := p.amount,
        reference := p.reference })
    let itemRows : List SaleItemRow := req.items.map (fun it =>
      { saleId := saleId, sneakerReferenceCode := it.sneakerReferenceCode,
        brand := it.brand, model := it.model, color := it.color, size := it.size,
        quantity := it.quantity, unitPrice := it.unitPrice,
        subtotal := (it.quantity : ℚ) * it.unitPrice })
    let db1 : DB :=
      { db with sales := db.sales ++ [sale],
                salePayments := db.salePayments ++ payRows,
                saleItems := db.saleItems ++ itemRows }
    let db2 : DB :=
      if req.requiresConfirmation then db1
      else { db1 with stock := update_stock_after_sale req.items u.locationId db1 }
    (.ok { saleId := saleId,
           status := if req.requiresConfirmation then "pending_confirmation" else "confirmed" },
     db2)

/-- The request body of POST /api/v1/discounts/request. -/
structure DiscountRequestCreate where
  amount : ℚ
  reason : String
deriving Repr, DecidableEq

/-- The fields of the success response of POST /api/v1/discounts/request the
spec talks about. -/
structure CreateDiscountResponse where
  discountRequestId : Nat
  status : String
deriving Repr, DecidableEq

/-- create_discount_request (main_standalone.py:1851-1918): role check; reject
amount > 5000; reject amount <= 0; otherwise insert a discount_requests row
(the INSERT names no status column, so the row takes the column default
'pending' from the DDL at main_standalone.py:2542) and answer status pending. -/
def create_discount_request (u : User) (d : DiscountRequestCreate) (now : Nat) (db : DB) :
    Except ApiError CreateDiscountResponse × DB :=
  if ¬(u.role = "seller" ∨ u.role = "administrador") then
    (.error (.forbidden "Solo selleres pueden solicitar descuentos"), db)
  else if d.amount > 5000 then
    (.error .discountTooLarge, db)
  else if d.amount ≤ 0 then
    (.error .discountNonPositive, db)
  else
    let rid := db.discounts.length + 1
    (.ok { discountRequestId := rid, status := "pending" },
     { db with discounts := db.discounts ++
         [{ id := rid, sellerId := u.id, amount := d.amount, reason := d.reason,
            status := "pending", requestedAt := now }] })

/-- The request body of POST /api/v1/sales/confirm (class SaleConfirmation). -/
structure SaleConfirmation where
  saleId : Nat
  confirmed : Bool
  confirmationNotes : Option String
deriving Repr, DecidableEq

/-- The fields of the success response of POST /api/v1/sales/confirm the spec
talks about. -/
structure ConfirmSaleResponse where
  saleId : Nat
  confirmed : Bool
deriving Repr, DecidableEq

/-- The ownership/eligibility lookup of confirm_sale:
`SELECT * FROM sales WHERE id = ? AND seller_id = ? AND requires_confirmation = 1`
(first matching row).  NOTE: the query does not filter on the `confirmed`
column. -/
def findPendingSale (db : DB) (saleId sellerId : Nat) : Option SaleRow :=
  db.sales.find? (fun s => s.id == saleId && s.sellerId == sellerId && s.requiresConfirmation)

/-- The note suffix appended by confirm_sale when confirmation_notes is given. -/
def confirmationNoteText (now : Nat) (n : String) : String :=
  "\nConfirmacion (" ++ toString now ++ "): " ++ n

/-- The sales-table effect of confirm_sale's UPDATE
(`SET confirmed = ?, confirmed_at = ?, notes = COALESCE(notes,'') || ? WHERE id = ?`). -/
def applyConfirmUpdate (c : SaleConfirmation) (now : Nat) (s : SaleRow) : SaleRow :=
  if s.id = c.saleId then
    { s with confirmed := c.confirmed,
             confirmedAt := if c.confirmed then some now else none,
             notes := s.notes ++ (match c.confirmationNotes with
               | some n => confirmationNoteText now n
               | none => "") }
  else s

/-- confirm_sale (main_standalone.py:1277-1353): role check; look the sale up by
(id, seller, requires_confirmation); 404 when no row; otherwise UPDATE the sale
row with the new confirmed flag, timestamp and appended notes, COMMIT and close
the connection; then, only when confirming, evaluate
`sale_items = get_sale_items(confirmation.sale_id)` — the name get_sale_items
is defined nowhere in the module, so this raises NameError (outside any
try/except) after the commit, and update_stock_after_sale is never reached. -/
def confirm_sale (u : User) (c : SaleConfirmation) (now : Nat) (db : DB) :
    Except ApiError ConfirmSaleResponse × DB :=
  if ¬(u.role = "seller" ∨ u.role = "administrador") then
    (.error (.forbidden "Solo selleres pueden confirmar ventas"), db)
  else
    match findPendingSale db c.saleId u.id with
    | none => (.error .saleNotFound, db)
    | some _ =>
      let db1 : DB := { db with sales := db.sales.map (applyConfirmUpdate c now) }
      if c.confirmed then
        (.error (.undefinedName "get_sale_items"), db1)
      else
        (.ok { saleId := c.saleId, confirmed := c.confirmed }, db1)

/-- The request body of POST /api/v1/transfers/request
(class TransferRequestComplete). -/
structure TransferRequestComplete where
  sourceLocationId : Nat
  sneakerReferenceCode : String
  brand : String
  model : String
  size : String
  quantity : Int
  purpose : String
  pickupType : String
  destinationType : String
  notes : Option String
deriving Repr, DecidableEq

/-- The fields of the success response of POST /api/v1/transfers/request the
spec talks about. -/
structure CreateTransferResponse where
  transferRequestId : Nat
  status : String
deriving Repr, DecidableEq

/-- create_transfer_request_complete (main_standalone.py:1682-1767): role
check; INSERT a transfer_requests row with requester_id = caller,
destination_location_id = caller's location, and no status column (so the row
takes the DDL default 'pending', main_standalone.py:2526); the follow-up SELECT
of the source location name is read-only; commit; answer status pending. -/
def create_transfer_request_complete (u : User) (td : TransferRequestComplete) (now : Nat)
    (db : DB) : Except ApiError CreateTransferResponse × DB :=
  if ¬(u.role = "seller" ∨ u.role = "administrador") then
    (.error (.forbidden "Solo selleres pueden solicitar transferencias"), db)
  else
    let rid := db.transfers.length + 1
    let row : TransferRow :=
      { id := rid, requesterId := u.id, sourceLocationId := td.sourceLocationId,
        destinationLocationId := u.locationId,
        sneakerReferenceCode := td.sneakerReferenceCode, brand := td.brand,
        model := td.model, size := td.size, quantity := td.quantity,
        purpose := td.purpose, pickupType := td.pickupType,
        destinationType := td.destinationType, status := "pending",
        requestedAt := now, notes := td.notes }
    (.ok { transferRequestId := rid, status := "pending" },
     { db with transfers := db.transfers ++ [row] })

/-- The fields of the success response of POST /api/v1/returns/request the spec
talks about. -/
structure CreateReturnResponse where
  returnRequestId : Nat
  status : String
deriving Repr, DecidableEq

/-- The eligibility lookup of create_return_request:
`SELECT tr.*, ... FROM transfer_requests tr JOIN locations sl ON
tr.source_location_id = sl.id JOIN locations dl ON tr.destination_location_id
= dl.id WHERE tr.id = ? AND tr.requester_id = ? AND tr.status = 'delivered'`
(first matching row).  The two JOINs require both location rows to exist. -/
def findDeliveredTransfer (db : DB) (uid tid : Nat) : Option TransferRow :=
  db.transfers.find? (fun tr =>
    tr.id == tid && tr.requesterId == uid && tr.status == "delivered"
      && (lookupLocationName db tr.sourceLocationId).isSome
      && (lookupLocationName db tr.destinationLocationId).isSome)

/-- create_return_request (main_standalone.py:1986-2086): role check; the
single eligibility lookup above with a single 404 on failure (the message does
not distinguish missing, not delivered, and wrong owner); otherwise INSERT a
return_requests row whose source is the original transfer's destination and
whose destination is the original transfer's source, copying reference, size
and quantity, with no status column (DDL default 'pending',
main_standalone.py:2563); commit; answer status pending. -/
def create_return_request (u : User) (originalTransferId : Nat) (rnotes : Option String)
    (now : Nat) (db : DB) : Except ApiError CreateReturnResponse × DB :=
  if ¬(u.role = "seller" ∨ u.role = "administrador") then
    (.error (.forbidden "Solo selleres pueden solicitar devoluciones"), db)
  else
    match findDeliveredTransfer db u.id originalTransferId with
    | none => (.error .transferNotFound, db)
    | some tr =>
      let rid := db.returns.length + 1
      let row : ReturnRow :=
        { id := rid, originalTransferId := originalTransferId, requesterId := u.id,
          sourceLocationId := tr.destinationLocationId,
          destinationLocationId := tr.sourceLocationId,
          sneakerReferenceCode := tr.sneakerReferenceCode, size := tr.size,
          quantity := tr.quantity, status := "pending", requestedAt := now,
          notes := rnotes }
      (.ok { returnRequestId := rid, status := "pending" },
       { db with returns := db.returns ++ [row] })

/-- The ownership lookup of mark_return_notification_read:
`SELECT rn.id FROM return_notifications rn JOIN transfer_requests tr ON
rn.transfer_request_id = tr.id WHERE rn.id = ? AND tr.requester_id = ?`. -/
def notificationOwnedBy (db : DB) (nid uid : Nat) : Bool :=
  db.notifications.any (fun rn => rn.id == nid &&
    db.transfers.any (fun tr => tr.id == rn.transferRequestId && tr.requesterId == uid))

/-- The fields of the success response of the mark-read endpoint the spec talks
about. -/
structure MarkReadResponse where
  notificationId : Nat
deriving Repr, DecidableEq

/-- The row-level effect of
`UPDATE return_notifications SET read_by_requester = TRUE WHERE id = ?`:
the matching row's flag is set (with no condition on its previous value). -/
def setReadRow (nid : Nat) (rn : NotificationRow) : NotificationRow :=
  if rn.id = nid then { rn with readByRequester := true } else rn

/-- mark_return_notification_read (main_standalone.py:2150-2206): there is no
role check; the ownership lookup above yields a 404 without changes when it
finds no row; otherwise the UPDATE above runs and commits. -/
def mark_return_notification_read (u : User) (nid : Nat) (db : DB) :
    Except ApiError MarkReadResponse × DB :=
  if notificationOwnedBy db nid u.id then
    (.ok { notificationId := nid },
     { db with notifications := db.notifications.map (setReadRow nid) })
  else
    (.error .notificationNotFound, db)

/-! Concrete fixtures used by the counterexample and witness theorems. -/

/-- A seller assigned to location 1. -/
def demoUser : User := { id := 10, role := "seller", locationId := 1 }

/-- The locations table with the two locations the fixtures use. -/
def demoLocations : List LocationRow := [{ id := 1, name := "Local Principal" },
  { id := 2, name := "Bodega Central" }]

/-- An empty database over the demo locations. -/
def dbEmpty : DB :=
  { locations := demoLocations, stock := [], sales := [], saleItems := [],
    salePayments := [], transfers := [], returns := [], discounts := [],
    notifications := [] }

/-- A requested line item: 3 units of SKU-A size 9.0 at unit price 100. -/
def itemA3 : SaleItemInput :=
  { sneakerReferenceCode := "SKU-A", brand := "BrandA", model := "ModelA",
    color := none, size := "9.0", quantity := 3, unitPrice := 100 }

/-- A no-confirmation sale of itemA3 paid in full with one cash split. -/
def saleReqA3 : CreateSaleRequest :=
  { items := [itemA3], totalAmount := 300,
    payments := [{ paymentType := "cash", amount := 300, reference := none }],
    notes := "", requiresConfirmation := false, receiptUrl := none }

/-- A database holding 2 units of SKU-A size 9.0 at location 1. -/
def dbStockA2 : DB :=
  { dbEmpty with stock :=
      [{ referenceCode := "SKU-A", locationName := "Local Principal",
         size := "9.0", quantity := 2 }] }

/-- A requested line item: 2 units of SKU-B size 8.5 at unit price 50. -/
def itemB2 : SaleItemInput :=
  { sneakerReferenceCode := "SKU-B", brand := "BrandB", model := "ModelB",
    color := none, size := "8.5", quantity := 2, unitPrice := 50 }

/-- A no-confirmation sale of itemB2 paid in full with one cash split. -/
def saleReqB2 : CreateSaleRequest :=
  { items := [itemB2], totalAmount := 100,
    payments := [{ paymentType := "cash", amount := 100, reference := none }],
    notes := "", requiresConfirmation := false, receiptUrl := none }

/-- A database holding 1 unit of SKU-B size 8.5 at location 1. -/
def dbStockB1 : DB :=
  { dbEmpty with stock :=
      [{ referenceCode := "SKU-B", locationName := "Local Principal",
         size := "8.5", quantity := 1 }] }

/-- A pending-confirmation sale row owned by demoUser. -/
def pendingSaleRow : SaleRow :=
  { id := 1, sellerId := 10, locationId := 1, totalAmount := 100,
    receiptImage := none, notes := "", requiresConfirmation := true,
    confirmed := false, confirmedAt := none, saleDate := 0 }

/-- A database holding the single pending sale. -/
def dbPendingSale : DB := { dbEmpty with sales := [pendingSaleRow] }

/-- The rejection request for that sale. -/
def rejectSale1 : SaleConfirmation :=
  { saleId := 1, confirmed := false, confirmationNotes := none }

/-- A create-sale request whose single payment split covers only half the
declared total. -/
def mismatchReq : CreateSaleRequest :=
  { items := [], totalAmount := 100,
    payments := [{ paymentType := "cash", amount := 50, reference := none }],
    notes := "", requiresConfirmation := false, receiptUrl := none }

/-- A transfer owned by demoUser that is still in transit. -/
def inTransitTransfer : TransferRow :=
  { id := 1, requesterId := 10, sourceLocationId := 2, destinationLocationId := 1,
    sneakerReferenceCode := "SKU-C", brand := "BrandC", model := "ModelC",
    size := "9.0", quantity := 1, purpose := "sale", pickupType := "corredor",
    destinationType := "bodega", status := "in_transit", requestedAt := 0,
    notes := none }

/-- A database holding the in-transit transfer. -/
def dbInTransit : DB := { dbEmpty with transfers := [inTransitTransfer] }

/-- The same transfer, delivered. -/
def deliveredTransfer : TransferRow := { inTransitTransfer with status := "delivered" }

/-- A database holding the delivered transfer. -/
def dbDelivered : DB := { dbEmpty with transfers := [deliveredTransfer] }

/-- A transfer request body used by the C8 witness. -/
def demoTransferReq : TransferRequestComplete :=
  { sourceLocationId := 2, sneakerReferenceCode := "SKU-D", brand := "BrandD",
    model := "ModelD", size := "8.0", quantity := 2, purpose := "exhibition",
    pickupType := "seller", destinationType := "exhibicion", notes := none }

/-- A notification for the delivered transfer, already read. -/
def readNotification : NotificationRow :=
  { id := 1, transferRequestId := 1, returnedToLocation := "Bodega Central",
    readByRequester := true }

/-- A database holding the delivered transfer and its read notification. -/
def dbNotif : DB :=
  { dbEmpty with transfers := [deliveredTransfer],
                 notifications := [readNotification] }

/-! Theorems. -/

theorem pyAbs_eq_abs (x : ℚ) : pyAbs x = |x| := by
  unfold pyAbs
  rcases lt_or_le x 0 with h | h
  · rw [if_pos h, abs_of_neg h]
  · rw [if_neg (not_lt.mpr h), abs_of_nonneg h]

/-- C1: the claim fails on the code.  create_sale_complete performs no
availability check (validate_stock_availability is never called): with stock 2
and a no-confirmation sale requesting 3 units, the call succeeds, the Sale row
is retained as confirmed, and the stock row is decremented to -1 — it does not
fail with InsufficientStock and stock does not stay at 2. -/
theorem create_sale_overdraws_stock :
    (create_sale_complete demoUser saleReqA3 5 dbStockA2).1
        = .ok { saleId := 1, status := "confirmed" }
    ∧ (create_sale_complete demoUser saleReqA3 5 dbStockA2).2.sales
        = [{ id := 1, sellerId := 10, locationId := 1, totalAmount := 300,
             receiptImage := none, notes := "", requiresConfirmation := false,
             confirmed := true, confirmedAt := some 5, saleDate := 5 }]
    ∧ (create_sale_complete demoUser saleReqA3 5 dbStockA2).2.stock
        = [{ referenceCode := "SKU-A", locationName := "Local Principal",
             size := "9.0", quantity := -1 }] := by
  decide

/-- C2: the non-negativity invariant is not preserved by the code.  Starting
from a database whose stock quantities are all non-negative, a single
sale-creation operation produces a state containing a negative stock
quantity. -/
theorem stock_nonnegativity_violated :
    (∀ r ∈ dbStockB1.stock, 0 ≤ r.quantity)
    ∧ ∃ r ∈ (create_sale_complete demoUser saleReqB2 7 dbStockB1).2.stock,
        r.quantity < 0 := by
  decide

/-- C3: the claim fails on the code.  confirm_sale's lookup filters only on
requires_confirmation (never on confirmed) and the update never clears
requires_confirmation, so after a sale has been rejected (terminal), a second
confirmSale on it succeeds again instead of failing with
InvalidStateTransition. -/
theorem confirm_sale_readmits_terminal_sale :
    (confirm_sale demoUser rejectSale1 3 dbPendingSale).1
        = .ok { saleId := 1, confirmed := false }
    ∧ (confirm_sale demoUser rejectSale1 4
          (confirm_sale demoUser rejectSale1 3 dbPendingSale).2).1
        = .ok { saleId := 1, confirmed := false } := by
  decide

/-- C4: when the caller is allowed to sell, a payment-splits sum that differs
from the declared total by more than 0.01 makes create_sale_complete fail with
the payment-mismatch error and leave the database exactly as it was (no Sale,
SaleItem or SalePayment row, stock untouched); otherwise the payment validation
passes and the call succeeds. -/
theorem create_sale_payment_validation (u : User) (req : CreateSaleRequest) (now : Nat)
    (db : DB) (hrole : u.role = "seller" ∨ u.role = "administrador") :
    (pyAbs (totalPayments req - req.totalAmount) > 1 / 100 →
      create_sale_complete u req now db
        = (.error (.paymentMismatch (totalPayments req) req.totalAmount), db))
    ∧ (¬ pyAbs (totalPayments req - req.totalAmount) > 1 / 100 →
      ∃ resp, (create_sale_complete u req now db).1 = .ok resp) := by
  unfold create_sale_complete
  rw [if_neg (not_not_intro hrole)]
  constructor
  · intro h
    rw [if_pos h]
  · intro h
    rw [if_neg h]
    exact ⟨_, rfl⟩

theorem create_sale_payment_validation_witness :
    create_sale_complete demoUser mismatchReq 0 dbStockA2
      = (.error (.paymentMismatch (totalPayments mismatchReq) mismatchReq.totalAmount),
         dbStockA2) :=
  (create_sale_payment_validation demoUser mismatchReq 0 dbStockA2 (Or.inl rfl)).1
    (by decide)

/-- C5: when the caller is allowed to sell, create_discount_request fails if
and only if the amount is non-positive or exceeds the 5000 cap, and a
successful request appends exactly one discount_requests row persisted with
status pending. -/
theorem create_discount_request_spec (u : User) (d : DiscountRequestCreate) (now : Nat)
    (db : DB) (hrole : u.role = "seller" ∨ u.role = "administrador") :
    ((∃ e, (create_discount_request u d now db).1 = .error e) ↔
      (d.amount ≤ 0 ∨ d.amount > 5000))
    ∧ (¬(d.amount ≤ 0 ∨ d.amount > 5000) →
      (create_discount_request u d now db).2.discounts
        = db.discounts ++
          [{ id := db.discounts.length + 1, sellerId := u.id, amount := d.amount,
             reason := d.reason, status := "pending", requestedAt := now }]) := by
  unfold create_discount_request
  rw [if_neg (not_not_intro hrole)]
  by_cases h1 : d.amount > 5000
  · rw [if_pos h1]
    exact ⟨⟨fun _ => Or.inr h1, fun _ => ⟨.discountTooLarge, rfl⟩⟩,
           fun hn => absurd (Or.inr h1) hn⟩
  · rw [if_neg h1]
    by_cases h2 : d.amount ≤ 0
    · rw [if_pos h2]
      exact ⟨⟨fun _ => Or.inl h2, fun _ => ⟨.discountNonPositive, rfl⟩⟩,
             fun hn => absurd (Or.inl h2) hn⟩
    · rw [if_neg h2]
      constructor
      · constructor
        · rintro ⟨e, he⟩
          exact absurd he (by simp)
        · rintro (h | h)
          · exact absurd h h2
          · exact absurd h h1
      · intro _
        rfl

theorem create_discount_request_spec_witness :
    (∃ e, (create_discount_request demoUser ⟨5001, "big"⟩ 0 dbEmpty).1 = .error e)
    ∧ (create_discount_request demoUser ⟨5000, "ok"⟩ 0 dbEmpty).2.discounts
      = [{ id := 1, sellerId := 10, amount := 5000, reason := "ok",
           status := "pending", requestedAt := 0 }] :=
  ⟨(create_discount_request_spec demoUser ⟨5001, "big"⟩ 0 dbEmpty (Or.inl rfl)).1.mpr
      (Or.inr (by decide)),
   (create_discount_request_spec demoUser ⟨5000, "ok"⟩ 0 dbEmpty (Or.inl rfl)).2
      (by decide)⟩

/-- Under a well-formed transfers table (every referenced location id resolves,
as the schema's NOT NULL foreign keys mandate), the return-eligibility lookup
finds nothing exactly when no transfer is simultaneously the requested one,
owned by the caller, and delivered. -/
theorem findDeliveredTransfer_eq_none_iff (db : DB) (uid tid : Nat)
    (hwf : ∀ tr ∈ db.transfers,
      (lookupLocationName db tr.sourceLocationId).isSome = true ∧
        (lookupLocationName db tr.destinationLocationId).isSome = true) :
    findDeliveredTransfer db uid tid = none ↔
      ¬ ∃ tr ∈ db.transfers,
          tr.id = tid ∧ tr.requesterId = uid ∧ tr.status = "delivered" := by
  unfold findDeliveredTransfer
  rw [List.find?_eq_none]
  constructor
  · rintro h ⟨tr, htr, h1, h2, h3⟩
    rcases hwf tr htr with ⟨hs, hd⟩
    exact h tr htr (by simp [h1, h2, h3, hs, hd])
  · intro h tr htr hp
    simp only [Bool.and_eq_true, beq_iff_eq] at hp
    exact h ⟨tr, htr, hp.1.1.1.1, hp.1.1.1.2, hp.1.1.2⟩

/-- C6: when the caller is allowed to request returns and the transfers table
is well-formed, create_return_request fails with the single not-found error
exactly when the referenced transfer is missing, not owned by the caller, or
not in status delivered (one undistinguished error for all three causes), and
on that failure the database is unchanged (no ReturnRequest row). -/
theorem create_return_not_found_iff (u : User) (tid : Nat) (rnotes : Option String)
    (now : Nat) (db : DB)
    (hrole : u.role = "seller" ∨ u.role = "administrador")
    (hwf : ∀ tr ∈ db.transfers,
      (lookupLocationName db tr.sourceLocationId).isSome = true ∧
        (lookupLocationName db tr.destinationLocationId).isSome = true) :
    ((create_return_request u tid rnotes now db).1 = .error .transferNotFound ↔
      ¬ ∃ tr ∈ db.transfers,
          tr.id = tid ∧ tr.requesterId = u.id ∧ tr.status = "delivered")
    ∧ ((create_return_request u tid rnotes now db).1 = .error .transferNotFound →
      (create_return_request u tid rnotes now db).2 = db) := by
  unfold create_return_request
  rw [if_neg (not_not_intro hrole)]
  rcases hfd : findDeliveredTransfer db u.id tid with _ | tr
  · refine ⟨⟨fun _ => ?_, fun _ => rfl⟩, fun _ => rfl⟩
    exact (findDeliveredTransfer_eq_none_iff db u.id tid hwf).mp hfd
  · have hmem := List.mem_of_find?_eq_some hfd
    have hp := List.find?_some hfd
    simp only [Bool.and_eq_true, beq_iff_eq] at hp
    refine ⟨⟨fun he => absurd he (by simp), fun hne => ?_⟩, fun he => absurd he (by simp)⟩
    exact absurd ⟨tr, hmem, hp.1.1.1.1, hp.1.1.1.2, hp.1.1.2⟩ hne

/-- C7: when the eligibility lookup finds the original transfer, the persisted
ReturnRequest row swaps the transfer's endpoints — its source is the original
destination and its destination the original source — and copies reference,
size and quantity. -/
theorem create_return_swaps_locations (u : User) (tid : Nat) (rnotes : Option String)
    (now : Nat) (db : DB) (tr : TransferRow)
    (hrole : u.role = "seller" ∨ u.role = "administrador")
    (hfind : findDeliveredTransfer db u.id tid = some tr) :
    (create_return_request u tid rnotes now db).2.returns
      = db.returns ++
        [{ id := db.returns.length + 1, originalTransferId := tid,
           requesterId := u.id,
           sourceLocationId := tr.destinationLocationId,
           destinationLocationId := tr.sourceLocationId,
           sneakerReferenceCode := tr.sneakerReferenceCode, size := tr.size,
           quantity := tr.quantity, status := "pending", requestedAt := now,
           notes := rnotes }] := by
  unfold create_return_request
  rw [if_neg (not_not_intro hrole), hfind]

theorem create_return_not_found_iff_witness :
    (create_return_request demoUser 1 none 0 dbInTransit).1 = .error .transferNotFound
    ∧ (create_return_request demoUser 1 none 0 dbInTransit).2 = dbInTransit :=
  have h := create_return_not_found_iff demoUser 1 none 0 dbInTransit
    (Or.inl rfl) (by decide)
  ⟨h.1.mpr (by decide), h.2 (h.1.mpr (by decide))⟩

theorem create_return_swaps_locations_witness :
    (create_return_request demoUser 1 none 5 dbDelivered).2.returns
      = [{ id := 1, originalTransferId := 1, requesterId := 10,
           sourceLocationId := 1, destinationLocationId := 2,
           sneakerReferenceCode := "SKU-C", size := "9.0", quantity := 1,
           status := "pending", requestedAt := 5, notes := none }] :=
  create_return_swaps_locations demoUser 1 none 5 dbDelivered deliveredTransfer
    (Or.inl rfl) (by decide)

/-- C8: when the caller is allowed to request transfers, the transfer created
by create_transfer_request_complete is appended as exactly one new row that
starts in status pending and whose destination location is the caller's own
location. -/
theorem create_transfer_starts_pending (u : User) (td : TransferRequestComplete)
    (now : Nat) (db : DB) (hrole : u.role = "seller" ∨ u.role = "administrador") :
    ∃ row : TransferRow,
      (create_transfer_request_complete u td now db).2.transfers
          = db.transfers ++ [row]
      ∧ row.status = "pending"
      ∧ row.destinationLocationId = u.locationId
      ∧ row.requesterId = u.id
      ∧ (create_transfer_request_complete u td now db).1
          = .ok { transferRequestId := row.id, status := "pending" } := by
  unfold create_transfer_request_complete
  rw [if_neg (not_not_intro hrole)]
  exact ⟨_, rfl, rfl, rfl, rfl, rfl⟩

theorem create_transfer_starts_pending_witness :
    ∃ row : TransferRow,
      (create_transfer_request_complete demoUser demoTransferReq 9 dbEmpty).2.transfers
          = dbEmpty.transfers ++ [row]
      ∧ row.status = "pending"
      ∧ row.destinationLocationId = demoUser.locationId
      ∧ row.requesterId = demoUser.id
      ∧ (create_transfer_request_complete demoUser demoTransferReq 9 dbEmpty).1
          = .ok { transferRequestId := row.id, status := "pending" } :=
  create_transfer_starts_pending demoUser demoTransferReq 9 dbEmpty (Or.inl rfl)

/-- Setting the read flag twice on a row equals setting it once. -/
theorem setReadRow_idem (nid : Nat) (rn : NotificationRow) :
    setReadRow nid (setReadRow nid rn) = setReadRow nid rn := by
  unfold setReadRow
  by_cases h : rn.id = nid
  · simp [h]
  · simp [h]

/-- The mark-read UPDATE changes neither notification ids nor their transfer
links nor the transfers table, so the ownership lookup is unaffected. -/
theorem notificationOwnedBy_setRead (db : DB) (nid uid : Nat) :
    notificationOwnedBy
        { db with notifications := db.notifications.map (setReadRow nid) } nid uid
      = notificationOwnedBy db nid uid := by
  unfold notificationOwnedBy
  rw [List.any_map]
  congr 1
  funext rn
  unfold setReadRow
  by_cases h : rn.id = nid
  · simp [h]
  · simp [h]

/-- C9: mark_return_notification_read is idempotent (marking twice leaves the
same final state as marking once, and re-marking an already-read notification
succeeds, since the UPDATE is unconditional); when the notification's owning
transfer's requester does not match the caller (or no such notification
exists) it fails with the not-found error and changes nothing. -/
theorem mark_read_idempotent_and_guarded (u : User) (nid : Nat) (db : DB) :
    (mark_return_notification_read u nid
        (mark_return_notification_read u nid db).2).2
      = (mark_return_notification_read u nid db).2
    ∧ (notificationOwnedBy db nid u.id = true →
        (mark_return_notification_read u nid db).1 = .ok { notificationId := nid })
    ∧ (notificationOwnedBy db nid u.id = false →
        (mark_return_notification_read u nid db).1 = .error .notificationNotFound
        ∧ (mark_return_notification_read u nid db).2 = db) := by
  by_cases h : notificationOwnedBy db nid u.id = true
  · have h2 : (mark_return_notification_read u nid db).2
        = { db with notifications := db.notifications.map (setReadRow nid) } := by
      unfold mark_return_notification_read
      rw [if_pos h]
    refine ⟨?_, fun _ => ?_, fun hf => absurd h (by rw [hf]; simp)⟩
    · rw [h2]
      unfold mark_return_notification_read
      rw [if_pos (by rw [notificationOwnedBy_setRead]; exact h)]
      simp only [List.map_map]
      exact congrArg _ (List.map_congr_left (fun a _ => setReadRow_idem nid a))
    · unfold mark_return_notification_read
      rw [if_pos h]
  · have hf0 : notificationOwnedBy db nid u.id = false := by
      cases hx : notificationOwnedBy db nid u.id
      · rfl
      · exact absurd hx h
    have h2 : mark_return_notification_read u nid db
        = (.error .notificationNotFound, db) := by
      unfold mark_return_notification_read
      rw [if_neg h]
    have h3 : (mark_return_notification_read u nid db).2 = db := congrArg Prod.snd h2
    refine ⟨?_, fun ht => absurd ht h,
            fun _ => ⟨congrArg Prod.fst h2, congrArg Prod.snd h2⟩⟩
    rw [h3]
    exact h3

theorem mark_read_idempotent_and_guarded_witness :
    (mark_return_notification_read demoUser 1 dbNotif).1 = .ok { notificationId := 1 }
    ∧ (mark_return_notification_read { id := 99, role := "seller", locationId := 1 } 1
        dbNotif).1 = .error .notificationNotFound :=
  ⟨(mark_read_idempotent_and_guarded demoUser 1 dbNotif).2.1 (by decide),
   ((mark_read_idempotent_and_guarded { id := 99, role := "seller", locationId := 1 } 1
       dbNotif).2.2 (by decide)).1⟩

/-- C10: a confirmSale call with confirmed = true that passes the
ownership/eligibility lookup first commits the confirmed flag and the
confirmation timestamp to the sales table, then evaluates the undefined name
get_sale_items and so always fails after the commit: the caller receives an
error, the sale stays persisted as confirmed, and stock is never debited. -/
theorem confirm_sale_commits_then_raises (u : User) (c : SaleConfirmation) (now : Nat)
    (db : DB) (s : SaleRow)
    (hrole : u.role = "seller" ∨ u.role = "administrador")
    (hc : c.confirmed = true)
    (hfind : findPendingSale db c.saleId u.id = some s) :
    (confirm_sale u c now db).1 = .error (.undefinedName "get_sale_items")
    ∧ (∀ s2 ∈ (confirm_sale u c now db).2.sales, s2.id = c.saleId →
        s2.confirmed = true ∧ s2.confirmedAt = some now)
    ∧ (confirm_sale u c now db).2.stock = db.stock
    ∧ (confirm_sale u c now db).2.sales.length = db.sales.length := by
  have hcs : confirm_sale u c now db
      = (.error (.undefinedName "get_sale_items"),
         { db with sales := db.sales.map (applyConfirmUpdate c now) }) := by
    unfold confirm_sale
    rw [if_neg (not_not_intro hrole), hfind]
    rw [if_pos hc]
  rw [hcs]
  refine ⟨rfl, ?_, rfl, by simp⟩
  intro s2 hmem hid
  rcases List.mem_map.mp hmem with ⟨s0, hs0, rfl⟩
  unfold applyConfirmUpdate at hid ⊢
  by_cases h : s0.id = c.saleId
  · rw [if_pos h]
    simp [hc]
  · rw [if_neg h] at hid
    exact absurd hid h

theorem confirm_sale_commits_then_raises_witness :
    (confirm_sale demoUser { saleId := 1, confirmed := true, confirmationNotes := none }
        3 dbPendingSale).1 = .error (.undefinedName "get_sale_items")
    ∧ (confirm_sale demoUser { saleId := 1, confirmed := true, confirmationNotes := none }
        3 dbPendingSale).2.stock = dbPendingSale.stock :=
  have h := confirm_sale_commits_then_raises demoUser
    { saleId := 1, confirmed := true, confirmationNotes := none } 3 dbPendingSale
    pendingSaleRow (Or.inl rfl) rfl (by decide)
  ⟨h.1, h.2.2.1⟩
